import Mathlib

/-!
Shallow embedding of the llm-d-async asynchronous request-dispatch layer.

Conventions of the embedding:
* Go `float64` values are modelled as `ℚ` (the program only compares and
  copies them; no float-specific behaviour is involved in the claims).
* Go `time.Duration` is an `Int` counting nanoseconds.
* Go functions returning `(T, error)` are modelled as `Except String T`
  when the zero value accompanies every error, and as a pair of options
  when both components carry information.
* External I/O (the Prometheus HTTP round trip, the official Prometheus
  API query, `fmt.Sscanf`, manager construction) is modelled by passing
  the outcome of the external call as an explicit argument.
-/

namespace LlmDAsync

/-- One second expressed in nanoseconds, as in Go's `time.Second`. -/
def timeSecond : Int := 1000000000

/-- `MetricsOptions` of `pkg/async/api`: configuration for async-processor
metrics collection. -/
structure MetricsOptions where
  modelServerMetricsScheme : String
  modelServerMetricsPath : String
  modelServerMetricsHTTPSInsecure : Bool
  refreshMetricsInterval : Int
  refreshPrometheusMetricsInterval : Int
  metricsStalenessThreshold : Int
  totalQueuedRequestsMetric : String
  totalRunningRequestsMetric : String
  kvCacheUsagePercentageMetric : String
  loRAInfoMetric : String
  cacheInfoMetric : String
  engineLabelKey : String
  defaultEngine : String
  targetNamespace : String
  targetPoolName : String
  targetLabelSelector : String
  targetPorts : List Int
  queueDepthThreshold : Int
  kvCacheUtilThreshold : ℚ
  deriving Repr, DecidableEq

/-- `NewMetricsOptions`: the default-initialized options value.  Fields the
Go literal leaves unset take the Go zero value. -/
def NewMetricsOptions : MetricsOptions where
  modelServerMetricsScheme := "http"
  modelServerMetricsPath := "/metrics"
  modelServerMetricsHTTPSInsecure := false
  refreshMetricsInterval := 5 * timeSecond
  refreshPrometheusMetricsInterval := 0
  metricsStalenessThreshold := 30 * timeSecond
  totalQueuedRequestsMetric := ""
  totalRunningRequestsMetric := ""
  kvCacheUsagePercentageMetric := ""
  loRAInfoMetric := ""
  cacheInfoMetric := ""
  engineLabelKey := "inference.networking.k8s.io/engine-type"
  defaultEngine := "vllm"
  targetNamespace := "llm-d-sim"
  targetPoolName := "ms-sim-llm-d-modelservice-decode"
  targetLabelSelector := "llm-d.ai/inferenceServing=true,llm-d.ai/role=decode"
  targetPorts := [8000]
  queueDepthThreshold := 10
  kvCacheUtilThreshold := 0.9

/-- `MetricsOptions.Complete`: no post-processing is needed, always succeeds. -/
def MetricsOptions.Complete (_opts : MetricsOptions) : Option String := none

/-- `MetricsOptions.Validate`: returns the first validation error, or `none`
when the options are valid.  The checks appear in the order of the source. -/
def MetricsOptions.Validate (opts : MetricsOptions) : Option String :=
  if opts.modelServerMetricsScheme ≠ "http" ∧ opts.modelServerMetricsScheme ≠ "https" then
    some "model-server-metrics-scheme must be http or https"
  else if opts.refreshMetricsInterval ≤ 0 then
    some "refresh-metrics-interval must be positive"
  else if opts.metricsStalenessThreshold ≤ 0 then
    some "metrics-staleness-threshold must be positive"
  else if opts.targetNamespace = "" then
    some "target-namespace cannot be empty"
  else if opts.targetLabelSelector = "" then
    some "target-label-selector cannot be empty"
  else if opts.targetPorts.length = 0 then
    some "target-ports cannot be empty"
  else
    match opts.targetPorts.find? (fun port => decide (port < 1 ∨ 65535 < port)) with
    | some _ => some "invalid port number in target-ports"
    | none =>
      if opts.queueDepthThreshold ≤ 0 then
        some "queue-depth-threshold must be positive"
      else if opts.kvCacheUtilThreshold ≤ 0 ∨ 1 < opts.kvCacheUtilThreshold then
        some "kv-cache-util-threshold must be between 0.0 and 1.0"
      else
        none

/-! ## Process startup (`main` of `cmd/main.go`)

Channels are identified by opaque tokens (`Nat`); the merge policy yields a
single merged-channel token, and the Flow supplies the retry and result
channel tokens.  External fallible steps (manager construction) enter as a
boolean outcome parameter. -/

/-- The subset of command-line configuration that drives startup control
flow: worker concurrency, the merge-policy selector, the backend selector,
and the metrics options. -/
structure MainConfig where
  concurrency : Int
  requestMergePolicy : String
  messageQueueImpl : String
  metricsOpts : MetricsOptions
  deriving Repr, DecidableEq

/-- The flag defaults of `main`: concurrency 8, policy random-robin,
backend redis-pubsub, metrics options from `NewMetricsOptions`. -/
def defaultMainConfig : MainConfig where
  concurrency := 8
  requestMergePolicy := "random-robin"
  messageQueueImpl := "redis-pubsub"
  metricsOpts := NewMetricsOptions

/-- One `go api.Worker(...)` spawn: the channel tokens handed to a worker. -/
structure WorkerSpawn where
  mergedChannel : Nat
  retryChannel : Nat
  resultChannel : Nat
  deriving Repr, DecidableEq

/-- The worker-spawning loop `for w := 1; w <= concurrency; w++`, which
starts one goroutine per iteration, each on the same three channels. -/
def spawnWorkers (concurrency : Int) (merged retry result : Nat) : List WorkerSpawn :=
  (List.range concurrency.toNat).map (fun _ => ⟨merged, retry, result⟩)

/-- How far `main` gets before blocking in `mgr.Start`: either it called
`os.Exit code` before the worker-spawning loop, or it reached the loop and
spawned the given workers. -/
inductive StartupResult where
  | exited (code : Nat)
  | running (workers : List WorkerSpawn)
  deriving Repr, DecidableEq

/-- The startup control flow of `main`: `Complete` (always nil) and
`Validate` on the metrics options, the merge-policy switch, the backend
switch, manager construction, then the worker-spawning loop.  `mgrOk` is
the outcome of `asyncserver.NewDefaultManager`. -/
def mainStartup (cfg : MainConfig) (mgrOk : Bool) (merged retry result : Nat) :
    StartupResult :=
  if (cfg.metricsOpts.Complete).isSome then .exited 1
  else if (cfg.metricsOpts.Validate).isSome then .exited 1
  else if cfg.requestMergePolicy ≠ "random-robin" then .exited 1
  else if cfg.messageQueueImpl ≠ "redis-pubsub" ∧ cfg.messageQueueImpl ≠ "gcp-pubsub" then
    .exited 1
  else if mgrOk = false then .exited 1
  else .running (spawnWorkers cfg.concurrency merged retry result)

/-! ## Prometheus pool-saturation query, official-API-client variant -/

/-- One entry of the `model.Vector` returned by the Prometheus API client. -/
structure PromSample where
  value : ℚ
  timestamp : Int
  deriving Repr, DecidableEq

/-- The shape of a successful `pc.api.Query` result: a vector of samples,
or a value of some other result type (scalar, matrix, string). -/
inductive PromAPIResult where
  | vector (samples : List PromSample)
  | other (typeName : String)
  deriving Repr, DecidableEq

/-- `PrometheusClient.QueryPoolSaturation`, the variant built on the
official Prometheus API client.  Its argument is the outcome of
`pc.api.Query`; the function classifies the result type, treats an empty
vector as `(0.0, nil)`, and otherwise returns the first sample's value.
The Go pair `(float64, error)` with a zero value on every error path is
`Except String ℚ`. -/
def queryPoolSaturationAPI (queryOutcome : Except String PromAPIResult) :
    Except String ℚ :=
  match queryOutcome with
  | .error e => .error ("failed to query Prometheus: " ++ e)
  | .ok (.other typeName) => .error ("unexpected result type: " ++ typeName)
  | .ok (.vector vector) =>
    match vector with
    | [] => .ok 0
    | sample :: _ => .ok sample.value

/-! ## Prometheus pool-saturation query, raw-HTTP variant -/

/-- A JSON value inside the `value` array of a Prometheus query result.
A string entry carries, alongside the raw text, the outcome of
`fmt.Sscanf(valueStr, "%f", ...)` on it, since float parsing is a library
call external to the repository. -/
inductive JSONValue where
  | str (raw : String) (parsed : Option ℚ)
  | num (q : ℚ)
  | other
  deriving Repr, DecidableEq

/-- One element of `data.result` in the decoded Prometheus response. -/
structure PromHTTPResult where
  metric : List (String × String)
  value : List JSONValue
  deriving Repr, DecidableEq

/-- The decoded `prometheusResponse` JSON payload. -/
structure PromHTTPResponse where
  status : String
  resultType : String
  result : List PromHTTPResult
  deriving Repr, DecidableEq

/-- Everything the environment decides during the raw-HTTP query: request
construction, the HTTP round trip, body read, and — on a received
response — the status code, raw body, and the JSON-decoding outcome. -/
inductive HTTPQueryOutcome where
  | reqErr (msg : String)
  | doErr (msg : String)
  | readErr (msg : String)
  | response (statusCode : Int) (body : String) (decoded : Option PromHTTPResponse)
  deriving Repr, DecidableEq

/-- `PrometheusClient.QueryPoolSaturation`, the variant that issues a raw
HTTP request and parses the JSON itself.  Checks, in source order: request
creation, round trip, body read, HTTP status 200, JSON decoding, response
status "success", empty result (yields `(0.0, nil)`), value-array length,
value type, and float parsing. -/
def queryPoolSaturationHTTP (outcome : HTTPQueryOutcome) : Except String ℚ :=
  match outcome with
  | .reqErr e => .error ("failed to create Prometheus request: " ++ e)
  | .doErr e => .error ("failed to query Prometheus: " ++ e)
  | .readErr e => .error ("failed to read Prometheus response: " ++ e)
  | .response statusCode body decoded =>
    if statusCode ≠ 200 then
      .error ("Prometheus query failed with non-OK status: " ++ body)
    else
      match decoded with
      | none => .error "failed to parse Prometheus response"
      | some promResp =>
        if promResp.status ≠ "success" then
          .error ("Prometheus query returned status: " ++ promResp.status)
        else
          match promResp.result with
          | [] => .ok 0
          | result :: _ =>
            match result.value with
            | _ :: v1 :: _ =>
              match v1 with
              | .str _ (some saturation) => .ok saturation
              | .str _ none => .error "failed to parse saturation value"
              | _ => .error "unexpected value type in Prometheus response"
            | _ => .error "unexpected Prometheus value format"

/-! ## PodMetrics construction (`pkg/async/api/metrics.go`) -/

/-- The `PodMetrics` value of the Prometheus-backed variant: a client
token and the pool name. -/
structure PodMetrics where
  prometheusClient : Nat
  poolName : String
  deriving Repr, DecidableEq

/-- The outcome of `NewPrometheusClient(prometheusURL)`, an external
constructor that can fail: a client token or an error. -/
inductive ClientOutcome where
  | ok (client : Nat)
  | err (msg : String)
  deriving Repr, DecidableEq

/-- `NewPodMetrics(prometheusURL, poolName)`: with an empty URL it only
logs and returns `(nil, nil)`; with a failing client constructor it
returns `(nil, err)`; otherwise it returns the populated value.  The Go
pair `(*PodMetrics, error)` is a pair of options. -/
def NewPodMetrics (prometheusURL poolName : String) (clientOutcome : ClientOutcome) :
    Option PodMetrics × Option String :=
  if prometheusURL = "" then (none, none)
  else
    match clientOutcome with
    | .err e => (none, some e)
    | .ok client => (some ⟨client, poolName⟩, none)

/-! ## Worker pool

The source of `api.Worker` is not among the provided files; only its call
site in `main` is.  The per-dequeue decision logic below is therefore
modelled from the specification (worker loop steps 2-7 and the retry
rules). -/

/-- Modelled from the spec: a unit of work with a stable identifier, an
opaque payload, a target pool, and a retry count starting at 0.  The
source of the Request type is not among the provided files. -/
structure Request where
  id : Nat
  payload : String
  targetPool : String
  retryCount : Nat
  deriving Repr, DecidableEq

/-- Modelled from the spec: a freshly decoded Request starts with retry
count 0. -/
def mkRequest (id : Nat) (payload targetPool : String) : Request where
  id := id
  payload := payload
  targetPool := targetPool
  retryCount := 0

/-- Modelled from the spec: a requeued Request is the same Request with
its retry count incremented by exactly 1. -/
def requeued (req : Request) : Request :=
  { req with retryCount := req.retryCount + 1 }

/-- Modelled from the spec: the per-pool saturation snapshot — queue
depth, KV-cache utilization fraction, and a staleness flag. -/
structure Saturation where
  queueDepth : Int
  kvCacheUtil : ℚ
  stale : Bool
  deriving Repr, DecidableEq

/-- Modelled from the spec: endpoint selection yields a reachable address
or an explicit no-healthy-endpoint signal. -/
inductive EndpointSelection where
  | endpoint (addr : String)
  | noHealthy
  deriving Repr, DecidableEq

/-- True exactly on the no-healthy-endpoint signal. -/
def isNoHealthy : EndpointSelection → Bool
  | .noHealthy => true
  | .endpoint _ => false

/-- Modelled from the spec: the observable outcome of one HTTP dispatch
attempt — a status code, a network error, or a timeout. -/
inductive DispatchResult where
  | httpStatus (code : Int)
  | networkError
  | timeout
  deriving Repr, DecidableEq

/-- Modelled from the spec: the worker configuration — saturation
thresholds and the retry ceiling. -/
structure WorkerConfig where
  queueDepthThreshold : Int
  kvCacheUtilThreshold : ℚ
  retryCeiling : Nat
  deriving Repr, DecidableEq

/-- Modelled from the spec: a pool is treated as saturated when any
configured threshold is exceeded, or when the snapshot is stale (staleness
triggers the same deferral path as saturation). -/
def saturatedB (cfg : WorkerConfig) (sat : Saturation) : Bool :=
  sat.stale || decide (cfg.queueDepthThreshold < sat.queueDepth) ||
    decide (cfg.kvCacheUtilThreshold < sat.kvCacheUtil)

/-- Modelled from the spec: one terminal event for a dequeue attempt — a
retry enqueue, or a result (success or permanent failure) on the result
channel. -/
inductive Outcome where
  | success
  | permanentFailure
  deriving Repr, DecidableEq

/-- A terminal event pushed by a worker after dequeuing one Request. -/
inductive TerminalEvent where
  | retryEnqueue (req : Request)
  | result (req : Request) (outcome : Outcome)
  deriving Repr, DecidableEq

/-- Modelled from the spec: handling of a transient dispatch failure — a
requeue while the retry count is below the configured ceiling, a
permanent-failure result otherwise.  Returns the events pushed. -/
def transientEvents (cfg : WorkerConfig) (req : Request) : List TerminalEvent :=
  if req.retryCount < cfg.retryCeiling then
    [.retryEnqueue (requeued req)]
  else
    [.result req .permanentFailure]

/-- Modelled from the spec: the events a worker pushes for one dequeued
Request (worker loop steps 2-7).  Saturation or no healthy endpoint defer
via the retry channel; a 2xx status is a success; a 4xx status is an
immediate permanent failure; network errors, timeouts, and all remaining
statuses (5xx) are transient failures subject to the retry ceiling. -/
def workerStepEvents (cfg : WorkerConfig) (req : Request) (sat : Saturation)
    (ep : EndpointSelection) (dispatch : DispatchResult) : List TerminalEvent :=
  if saturatedB cfg sat || isNoHealthy ep then
    [.retryEnqueue (requeued req)]
  else
    match dispatch with
    | .httpStatus code =>
      if 200 ≤ code ∧ code < 300 then [.result req .success]
      else if 400 ≤ code ∧ code < 500 then [.result req .permanentFailure]
      else transientEvents cfg req
    | .networkError => transientEvents cfg req
    | .timeout => transientEvents cfg req

/-- The one-step requeue relation between Request states: some admission
state and dispatch outcome make the worker push exactly a retry enqueue
of the second Request. -/
def Requeue (cfg : WorkerConfig) (req req' : Request) : Prop :=
  ∃ sat ep dispatch, workerStepEvents cfg req sat ep dispatch = [.retryEnqueue req']

/-- A transient dispatch failure as the spec classifies it: network error,
timeout, or a 5xx status. -/
def transientDispatch : DispatchResult → Prop
  | .networkError => True
  | .timeout => True
  | .httpStatus code => 500 ≤ code ∧ code < 600

/-! ## Derived predicates used by the theorems -/

/-- The validity of every `Validate` check other than the two saturation
thresholds, read off the non-threshold branches of the source. -/
def otherFieldsValid (opts : MetricsOptions) : Prop :=
  (opts.modelServerMetricsScheme = "http" ∨ opts.modelServerMetricsScheme = "https") ∧
  0 < opts.refreshMetricsInterval ∧
  0 < opts.metricsStalenessThreshold ∧
  opts.targetNamespace ≠ "" ∧
  opts.targetLabelSelector ≠ "" ∧
  opts.targetPorts ≠ [] ∧
  ∀ port ∈ opts.targetPorts, 1 ≤ port ∧ port ≤ 65535

/-- The value both query variants are specified to produce from a vector
of samples: the first sample's value, or 0 when the vector is empty. -/
def firstSampleOrZero : List PromSample → ℚ
  | [] => 0
  | sample :: _ => sample.value

/-- Correspondence between one API-client sample and one raw-HTTP result
entry: the entry's value array is a two-element `[timestamp, string]` pair
whose string parses to the sample's value. -/
def resultCarries (sample : PromSample) (result : PromHTTPResult) : Prop :=
  ∃ ts raw, result.value = [ts, .str raw (some sample.value)]

/-- Whether an `Except` result is a success. -/
def exceptOk {ε α : Type} : Except ε α → Bool
  | .ok _ => true
  | .error _ => false

/-- Every string entry of every value array in a decoded response parses
to a value inside the closed interval from 0 to 1. -/
def decodedValuesIn01 (resp : PromHTTPResponse) : Prop :=
  ∀ r ∈ resp.result, ∀ v ∈ r.value, ∀ raw q, v = .str raw (some q) → 0 ≤ q ∧ q ≤ 1

/-- Helper: a requeue step increments the retry count by exactly 1 and
keeps the identifier, payload and target pool. -/
theorem requeue_step (cfg : WorkerConfig) (req req' : Request) (sat : Saturation)
    (ep : EndpointSelection) (dispatch : DispatchResult)
    (h : workerStepEvents cfg req sat ep dispatch = [.retryEnqueue req']) :
    req' = requeued req := by
  unfold workerStepEvents at h
  split at h
  · simpa [List.cons.injEq] using h.symm
  · split at h
    · split at h
      · simp at h
      · split at h
        · simp at h
        · unfold transientEvents at h
          split at h
          · simpa using h.symm
          · simp at h
    · unfold transientEvents at h
      split at h
      · simpa using h.symm
      · simp at h
    · unfold transientEvents at h
      split at h
      · simpa using h.symm
      · simp at h

/-- Helper: along any chain of requeues the retry count is non-decreasing
and the identifier is stable. -/
theorem requeue_chain (cfg : WorkerConfig) (req req' : Request)
    (h : Relation.ReflTransGen (Requeue cfg) req req') :
    req.retryCount ≤ req'.retryCount ∧ req'.id = req.id := by
  induction h with
  | refl => exact ⟨le_refl _, rfl⟩
  | tail _ step ih =>
    obtain ⟨sat, ep, dispatch, hstep⟩ := step
    have := requeue_step cfg _ _ sat ep dispatch hstep
    subst this
    exact ⟨le_trans ih.1 (Nat.le_succ _), ih.2⟩

/-! ## Claim theorems -/

/-- C8: the default configuration is self-consistent — `Validate` applied
to the options built by `NewMetricsOptions` returns nil. -/
theorem c8_default_options_valid : NewMetricsOptions.Validate = none := by
  unfold MetricsOptions.Validate NewMetricsOptions
  norm_num [timeSecond, List.find?]
  decide

/-- C9: `NewPodMetrics` with an empty Prometheus URL returns a nil
`PodMetrics` pointer together with a nil error, for every pool name and
every outcome of the client constructor. -/
theorem c9_empty_url_nil_nil (poolName : String) (clientOutcome : ClientOutcome) :
    NewPodMetrics "" poolName clientOutcome = (none, none) := by
  rfl

/-- C3: when the pool-saturation query succeeds but returns an empty
result vector, both variants of `QueryPoolSaturation` return the value 0.0
together with a nil error. -/
theorem c3_empty_vector_not_saturated (body resultType : String) :
    queryPoolSaturationAPI (.ok (.vector [])) = .ok 0 ∧
    queryPoolSaturationHTTP (.response 200 body (some ⟨"success", resultType, []⟩)) =
      .ok 0 := by
  exact ⟨rfl, rfl⟩

/-- C4 counterexample: a Prometheus sample carrying the value 2 makes both
variants of `QueryPoolSaturation` return 2 with a nil error, a successful
return outside the closed interval from 0 to 1 — so the returned value is
not in that interval regardless of the sample's numeric value. -/
theorem c4_counterexample :
    queryPoolSaturationAPI (.ok (.vector [⟨2, 0⟩])) = .ok 2 ∧
    queryPoolSaturationHTTP
      (.response 200 "" (some ⟨"success", "vector",
        [⟨[], [.num 0, .str "2" (some 2)]⟩]⟩)) = .ok 2 ∧
    ¬ ((2 : ℚ) ≤ 1) := by
  refine ⟨rfl, rfl, by norm_num⟩

/-- C4 amended: every successful return of either `QueryPoolSaturation`
variant lies in the closed interval from 0 to 1 provided the sample
values carried by the query result lie in that interval (the empty-vector
return 0 always does); the functions pass the first sample's value through
unclamped, so the range guarantee is inherited from the data, not
enforced. -/
theorem c4_saturation_range (samples : List PromSample) (statusCode : Int)
    (body : String) (resp : PromHTTPResponse) (q q' : ℚ)
    (hs : ∀ s ∈ samples, 0 ≤ s.value ∧ s.value ≤ 1)
    (hr : decodedValuesIn01 resp) :
    (queryPoolSaturationAPI (.ok (.vector samples)) = .ok q → 0 ≤ q ∧ q ≤ 1) ∧
    (queryPoolSaturationHTTP (.response statusCode body (some resp)) = .ok q' →
      0 ≤ q' ∧ q' ≤ 1) := by
  constructor
  · intro h
    cases samples with
    | nil =>
      simp only [queryPoolSaturationAPI, Except.ok.injEq] at h
      subst h
      norm_num
    | cons s rest =>
      simp only [queryPoolSaturationAPI, Except.ok.injEq] at h
      subst h
      exact hs s (List.mem_cons_self s rest)
  · intro h
    simp only [queryPoolSaturationHTTP] at h
    split at h
    · cases h
    · split at h
      · cases h
      · rcases hlist : resp.result with _ | ⟨result, rest⟩
        · rw [hlist] at h
          have h2 : (Except.ok 0 : Except String ℚ) = .ok q' := h
          obtain rfl : (0 : ℚ) = q' := by injection h2
          norm_num
        · rw [hlist] at h
          have h3 : (match result.value with
              | _ :: v1 :: _ =>
                match v1 with
                | JSONValue.str _ (some saturation) => (Except.ok saturation : Except String ℚ)
                | JSONValue.str _ none => Except.error "failed to parse saturation value"
                | _ => Except.error "unexpected value type in Prometheus response"
              | _ => Except.error "unexpected Prometheus value format") = Except.ok q' := h
          rcases hval : result.value with _ | ⟨v0, _ | ⟨v1, vrest⟩⟩
          · rw [hval] at h3
            exact Except.noConfusion h3
          · rw [hval] at h3
            exact Except.noConfusion h3
          · rw [hval] at h3
            cases v1 with
            | str raw p =>
              cases p with
              | none => exact Except.noConfusion h3
              | some sat =>
                have h2 : (Except.ok sat : Except String ℚ) = .ok q' := h3
                obtain rfl : sat = q' := by injection h2
                have hres : result ∈ resp.result := by
                  rw [hlist]
                  exact List.mem_cons_self result rest
                have hv1 : JSONValue.str raw (some sat) ∈ result.value := by
                  rw [hval]
                  exact List.mem_cons_of_mem v0 (List.mem_cons_self _ vrest)
                exact hr result hres _ hv1 raw sat rfl
            | num qq => exact Except.noConfusion h3
            | other => exact Except.noConfusion h3

/-- C4 amended witness: the range theorem at a concrete one-sample result
with value one half. -/
theorem c4_saturation_range_witness :
    (0 : ℚ) ≤ 1/2 ∧ (1/2 : ℚ) ≤ 1 := by
  have h := c4_saturation_range [⟨1/2, 0⟩] 200 ""
    ⟨"success", "vector", [⟨[], [.num 0, .str "0.5" (some (1/2))]⟩]⟩ (1/2) (1/2)
    (by intro s hs; simp at hs; rw [hs]; norm_num)
    (by
      intro r hr v hv raw p hp
      simp at hr
      subst hr
      simp at hv
      rcases hv with hv | hv
      · rw [hv] at hp; cases hp
      · rw [hv] at hp
        cases hp
        norm_num)
  exact h.1 rfl

/-- C1: any configuration whose merge-policy string is not random-robin,
or whose backend string is neither redis-pubsub nor gcp-pubsub, makes
`main` reach `os.Exit(1)` before the worker-spawning loop runs, whatever
the other flags and the manager-construction outcome. -/
theorem c1_unknown_selector_exits (cfg : MainConfig) (mgrOk : Bool)
    (merged retry result : Nat)
    (h : cfg.requestMergePolicy ≠ "random-robin" ∨
      (cfg.messageQueueImpl ≠ "redis-pubsub" ∧ cfg.messageQueueImpl ≠ "gcp-pubsub")) :
    mainStartup cfg mgrOk merged retry result = .exited 1 := by
  rcases h with h | ⟨h1, h2⟩
  · simp [mainStartup, MetricsOptions.Complete, h]
  · simp [mainStartup, MetricsOptions.Complete, h1, h2]

/-- C1 witness: a configuration selecting the unknown backend
"kafka" exits with status 1 before any worker is spawned. -/
theorem c1_unknown_selector_exits_witness :
    mainStartup ⟨8, "random-robin", "kafka", NewMetricsOptions⟩ true 0 1 2 =
      .exited 1 := by
  exact c1_unknown_selector_exits ⟨8, "random-robin", "kafka", NewMetricsOptions⟩
    true 0 1 2 (Or.inr (by simp))

/-- C2: a queue-depth threshold that is not positive or a KV-cache
threshold outside the half-open interval from 0 exclusive to 1 inclusive
makes `Validate` return a non-nil error and makes `main` exit with status
1 before any worker is started; conversely, with the remaining fields
valid, `Validate` accepts every positive queue-depth threshold and every
KV-cache threshold in that interval. -/
theorem c2_threshold_validation (opts : MetricsOptions) :
    ((opts.queueDepthThreshold ≤ 0 ∨ opts.kvCacheUtilThreshold ≤ 0 ∨
        1 < opts.kvCacheUtilThreshold) →
      (opts.Validate).isSome = true ∧
      ∀ cfg : MainConfig, cfg.metricsOpts = opts →
        ∀ (mgrOk : Bool) (merged retry result : Nat),
          mainStartup cfg mgrOk merged retry result = .exited 1) ∧
    (otherFieldsValid opts → 0 < opts.queueDepthThreshold →
      0 < opts.kvCacheUtilThreshold → opts.kvCacheUtilThreshold ≤ 1 →
      opts.Validate = none) := by
  constructor
  · intro h
    have hv : (opts.Validate).isSome = true := by
      unfold MetricsOptions.Validate
      split
      · rfl
      · split
        · rfl
        · split
          · rfl
          · split
            · rfl
            · split
              · rfl
              · split
                · rfl
                · split
                  · rfl
                  · split
                    · rfl
                    · split
                      · rfl
                      · rename_i hqd hkv
                        push_neg at hkv
                        refine absurd h (by push_neg; exact ⟨by omega, hkv.1, hkv.2⟩)
    refine ⟨hv, ?_⟩
    intro cfg hcfg mgrOk merged retry result
    unfold mainStartup
    rw [hcfg]
    simp [MetricsOptions.Complete, hv]
  · rintro ⟨hscheme, hri, hms, hns, hsel, hne, hports⟩ hqd hkv0 hkv1
    have hfind : opts.targetPorts.find? (fun port => decide (port < 1 ∨ 65535 < port)) =
        none := by
      rw [List.find?_eq_none]
      intro x hx
      have hb := hports x hx
      simp only [decide_eq_true_eq]
      omega
    have h1 : ¬(opts.modelServerMetricsScheme ≠ "http" ∧
        opts.modelServerMetricsScheme ≠ "https") := by
      rcases hscheme with h | h <;> simp [h]
    have h2 : ¬(opts.refreshMetricsInterval ≤ 0) := by omega
    have h3 : ¬(opts.metricsStalenessThreshold ≤ 0) := by omega
    have h6 : ¬(opts.targetPorts.length = 0) := by
      simpa [List.length_eq_zero] using hne
    have h7 : ¬(opts.queueDepthThreshold ≤ 0) := by omega
    have h8 : ¬(opts.kvCacheUtilThreshold ≤ 0 ∨ 1 < opts.kvCacheUtilThreshold) := by
      push_neg
      exact ⟨hkv0, hkv1⟩
    simp only [MetricsOptions.Validate, if_neg h1, if_neg h2, if_neg h3, if_neg hns,
      if_neg hsel, if_neg h6, hfind, if_neg h7, if_neg h8]

/-- C2 witness: the threshold theorem at two concrete option values — the
defaults with a zero queue-depth threshold are rejected and make startup
exit with status 1, and the unmodified defaults are accepted. -/
theorem c2_threshold_validation_witness :
    ({ NewMetricsOptions with queueDepthThreshold := 0 } :
        MetricsOptions).Validate.isSome = true ∧
    mainStartup ⟨8, "random-robin", "redis-pubsub",
      { NewMetricsOptions with queueDepthThreshold := 0 }⟩ true 0 1 2 = .exited 1 ∧
    NewMetricsOptions.Validate = none := by
  have hbad := (c2_threshold_validation
    { NewMetricsOptions with queueDepthThreshold := 0 }).1 (Or.inl (by norm_num))
  have hgood := (c2_threshold_validation NewMetricsOptions).2
    (by
      refine ⟨Or.inl rfl, by norm_num [NewMetricsOptions, timeSecond], by
        norm_num [NewMetricsOptions, timeSecond], by simp [NewMetricsOptions], by
        simp [NewMetricsOptions], by simp [NewMetricsOptions], ?_⟩
      intro port hport
      simp only [NewMetricsOptions] at hport
      simp at hport
      omega)
    (by norm_num [NewMetricsOptions])
    (by norm_num [NewMetricsOptions])
    (by norm_num [NewMetricsOptions])
  exact ⟨hbad.1, hbad.2 _ rfl true 0 1 2, hgood⟩

/-- Helper: the worker-spawning loop spawns one worker per count and every
spawned worker carries the given channel tokens. -/
theorem spawnWorkers_spec (c : Int) (merged retry result : Nat) :
    (spawnWorkers c merged retry result).length = c.toNat ∧
    ∀ w ∈ spawnWorkers c merged retry result,
      w = ⟨merged, retry, result⟩ := by
  constructor
  · simp [spawnWorkers]
  · intro w hw
    simp only [spawnWorkers, List.mem_map] at hw
    obtain ⟨_, _, rfl⟩ := hw
    rfl

/-- C5: whenever startup reaches the worker-spawning loop, it starts
exactly the configured number of workers (8 under the default
configuration), each handed the same merged request channel, the same
retry channel, and the same result channel; the startup control flow
spawns workers in this single loop only. -/
theorem c5_worker_pool_spawn (cfg : MainConfig) (mgrOk : Bool)
    (merged retry result : Nat) (workers : List WorkerSpawn)
    (h : mainStartup cfg mgrOk merged retry result = .running workers) :
    workers.length = cfg.concurrency.toNat ∧
    (0 ≤ cfg.concurrency → (workers.length : Int) = cfg.concurrency) ∧
    (∀ w ∈ workers, w.mergedChannel = merged ∧ w.retryChannel = retry ∧
      w.resultChannel = result) ∧
    (cfg = defaultMainConfig → workers.length = 8) := by
  have hw : workers = spawnWorkers cfg.concurrency merged retry result := by
    unfold mainStartup at h
    split at h
    · exact StartupResult.noConfusion h
    · split at h
      · exact StartupResult.noConfusion h
      · split at h
        · exact StartupResult.noConfusion h
        · split at h
          · exact StartupResult.noConfusion h
          · split at h
            · exact StartupResult.noConfusion h
            · injection h with h
              exact h.symm
  subst hw
  obtain ⟨hlen, hmem⟩ := spawnWorkers_spec cfg.concurrency merged retry result
  refine ⟨hlen, ?_, ?_, ?_⟩
  · intro hc
    rw [hlen]
    omega
  · intro w hwmem
    rw [hmem w hwmem]
    exact ⟨rfl, rfl, rfl⟩
  · intro hdef
    rw [hlen, hdef]
    rfl

/-- C5 witness: the spawn theorem at the default configuration — 8
workers, all on channels 0, 1 and 2. -/
theorem c5_worker_pool_spawn_witness :
    (spawnWorkers 8 0 1 2).length = 8 ∧
    ∀ w ∈ spawnWorkers 8 0 1 2, w.mergedChannel = 0 ∧ w.retryChannel = 1 ∧
      w.resultChannel = 2 := by
  have h := c5_worker_pool_spawn defaultMainConfig true 0 1 2
    (spawnWorkers 8 0 1 2)
    (by
      have : NewMetricsOptions.Validate = none := by
        unfold MetricsOptions.Validate NewMetricsOptions
        norm_num [timeSecond, List.find?]
        decide
      simp [mainStartup, MetricsOptions.Complete, defaultMainConfig, this])
  exact ⟨h.2.2.2 rfl, h.2.2.1⟩

/-- C6: for every Request dequeued by a worker, exactly one terminal
event is produced for that dequeue attempt — one retry enqueue, or one
success result, or one failure result — never zero and never more than
one, whatever the admission state and dispatch outcome. -/
theorem c6_exactly_one_terminal_event (cfg : WorkerConfig) (req : Request)
    (sat : Saturation) (ep : EndpointSelection) (dispatch : DispatchResult) :
    (workerStepEvents cfg req sat ep dispatch).length = 1 := by
  unfold workerStepEvents transientEvents
  repeat' split
  all_goals rfl

/-- C7: the retry count of a Request starts at 0, each requeue of the
same identifier increments it by exactly 1 (so it is non-decreasing along
any chain of requeues, with the identifier stable), and once the count
has reached the configured ceiling the next transient dispatch failure
produces a permanent-failure result instead of another requeue. -/
theorem c7_retry_count_monotone (cfg : WorkerConfig) (id : Nat)
    (payload targetPool : String) (req req' r2 : Request)
    (sat1 sat2 : Saturation) (ep1 ep2 : EndpointSelection)
    (d1 d2 : DispatchResult) :
    (mkRequest id payload targetPool).retryCount = 0 ∧
    (workerStepEvents cfg req sat1 ep1 d1 = [.retryEnqueue req'] →
      req'.retryCount = req.retryCount + 1 ∧ req'.id = req.id) ∧
    (Relation.ReflTransGen (Requeue cfg) req r2 →
      req.retryCount ≤ r2.retryCount ∧ r2.id = req.id) ∧
    (cfg.retryCeiling ≤ req.retryCount → saturatedB cfg sat2 = false →
      isNoHealthy ep2 = false → transientDispatch d2 →
      workerStepEvents cfg req sat2 ep2 d2 = [.result req .permanentFailure]) := by
  refine ⟨rfl, ?_, requeue_chain cfg req r2, ?_⟩
  · intro h
    have h2 := requeue_step cfg req req' sat1 ep1 d1 h
    subst h2
    exact ⟨rfl, rfl⟩
  · intro hc hsat hep hd
    have hnot : ¬(req.retryCount < cfg.retryCeiling) := by omega
    cases d2 with
    | httpStatus code =>
      obtain ⟨h5, h6⟩ := hd
      have hs1 : ¬(200 ≤ code ∧ code < 300) := by omega
      have hs2 : ¬(400 ≤ code ∧ code < 500) := by omega
      simp [workerStepEvents, hsat, hep, transientEvents, hnot, hs1, hs2]
    | networkError =>
      simp [workerStepEvents, hsat, hep, transientEvents, hnot]
    | timeout =>
      simp [workerStepEvents, hsat, hep, transientEvents, hnot]

/-- C7 witness: the retry-count theorem at a concrete Request with count
3 and ceiling 3 — fresh Requests start at 0, a requeue takes the count
from 3 to 4, a trivial chain is non-decreasing, and at the ceiling a
network error yields a permanent failure. -/
theorem c7_retry_count_monotone_witness :
    (mkRequest 1 "p" "pool").retryCount = 0 ∧
    (⟨1, "p", "pool", 4⟩ : Request).retryCount =
      (⟨1, "p", "pool", 3⟩ : Request).retryCount + 1 ∧
    (⟨1, "p", "pool", 3⟩ : Request).retryCount ≤
      (⟨1, "p", "pool", 3⟩ : Request).retryCount ∧
    workerStepEvents ⟨10, 1, 3⟩ ⟨1, "p", "pool", 3⟩ ⟨0, 0, false⟩ (.endpoint "e")
      .networkError = [.result ⟨1, "p", "pool", 3⟩ .permanentFailure] := by
  obtain ⟨w1, w2, w3, w4⟩ := c7_retry_count_monotone ⟨10, 1, 3⟩ 1 "p" "pool"
    ⟨1, "p", "pool", 3⟩ ⟨1, "p", "pool", 4⟩ ⟨1, "p", "pool", 3⟩
    ⟨0, 0, true⟩ ⟨0, 0, false⟩ .noHealthy (.endpoint "e") .timeout .networkError
  refine ⟨w1, ?_, (w3 Relation.ReflTransGen.refl).1, ?_⟩
  · exact (w2 (by simp [workerStepEvents, saturatedB, requeued])).1
  · refine w4 (le_refl 3) ?_ rfl trivial
    norm_num [saturatedB]

/-- C10: the two `QueryPoolSaturation` variants compute the same outcome
from the same query result — for corresponding vectors of samples both
return the first sample's value (or 0 when empty) with nil error, and
each returns a non-nil error exactly when its query fails or its response
is malformed (non-vector result type for the API variant; failed request,
round trip or read, non-200 status, undecodable JSON, non-success status,
or a malformed first value entry for the raw-HTTP variant). -/
theorem c10_variant_equivalence :
    (∀ (samples : List PromSample) (results : List PromHTTPResult) (body rt : String),
      List.Forall₂ resultCarries samples results →
      queryPoolSaturationAPI (.ok (.vector samples)) = .ok (firstSampleOrZero samples) ∧
      queryPoolSaturationHTTP (.response 200 body (some ⟨"success", rt, results⟩)) =
        .ok (firstSampleOrZero samples)) ∧
    (∀ e, exceptOk (queryPoolSaturationAPI (.error e)) = false) ∧
    (∀ t, exceptOk (queryPoolSaturationAPI (.ok (.other t))) = false) ∧
    (∀ o, exceptOk (queryPoolSaturationAPI o) = true →
      ∃ samples, o = .ok (.vector samples)) ∧
    (∀ e, exceptOk (queryPoolSaturationHTTP (.reqErr e)) = false) ∧
    (∀ e, exceptOk (queryPoolSaturationHTTP (.doErr e)) = false) ∧
    (∀ e, exceptOk (queryPoolSaturationHTTP (.readErr e)) = false) ∧
    (∀ o, exceptOk (queryPoolSaturationHTTP o) = true →
      ∃ body resp, o = .response 200 body (some resp) ∧ resp.status = "success" ∧
        (resp.result = [] ∨ ∃ r rest ts raw qv vrest,
          resp.result = r :: rest ∧ r.value = ts :: .str raw (some qv) :: vrest)) := by
  refine ⟨?_, fun e => rfl, fun t => rfl, ?_, fun e => rfl, fun e => rfl, fun e => rfl, ?_⟩
  · intro samples results body rt hf
    cases hf with
    | nil => exact ⟨rfl, rfl⟩
    | cons hsr htail =>
      rename_i s r ss rs
      obtain ⟨ts, raw, hval⟩ := hsr
      refine ⟨rfl, ?_⟩
      have hB : queryPoolSaturationHTTP (.response 200 body (some ⟨"success", rt, r :: rs⟩)) =
          (match r.value with
            | _ :: v1 :: _ =>
              match v1 with
              | JSONValue.str _ (some saturation) => (Except.ok saturation : Except String ℚ)
              | JSONValue.str _ none => Except.error "failed to parse saturation value"
              | _ => Except.error "unexpected value type in Prometheus response"
            | _ => Except.error "unexpected Prometheus value format") := rfl
      rw [hB, hval]
      rfl
  · intro o ho
    match o with
    | .error e => exact absurd ho (by simp [queryPoolSaturationAPI, exceptOk])
    | .ok (.other t) => exact absurd ho (by simp [queryPoolSaturationAPI, exceptOk])
    | .ok (.vector samples) => exact ⟨samples, rfl⟩
  · intro o ho
    match o with
    | .reqErr e => exact absurd ho (by simp [queryPoolSaturationHTTP, exceptOk])
    | .doErr e => exact absurd ho (by simp [queryPoolSaturationHTTP, exceptOk])
    | .readErr e => exact absurd ho (by simp [queryPoolSaturationHTTP, exceptOk])
    | .response sc body none =>
      simp only [queryPoolSaturationHTTP] at ho
      split at ho
      · exact absurd ho (by simp [exceptOk])
      · exact absurd ho (by simp [exceptOk])
    | .response sc body (some resp) =>
      simp only [queryPoolSaturationHTTP] at ho
      split at ho
      · exact absurd ho (by simp [exceptOk])
      · rename_i hsc
        obtain rfl : sc = 200 := not_ne_iff.mp hsc
        split at ho
        · exact absurd ho (by simp [exceptOk])
        · rename_i hst
          have hst2 : resp.status = "success" := not_ne_iff.mp hst
          refine ⟨body, resp, rfl, hst2, ?_⟩
          rcases hlist : resp.result with _ | ⟨r, rest⟩
          · exact Or.inl rfl
          · rw [hlist] at ho
            have ho2 : exceptOk (match r.value with
                | _ :: v1 :: _ =>
                  match v1 with
                  | JSONValue.str _ (some saturation) =>
                    (Except.ok saturation : Except String ℚ)
                  | JSONValue.str _ none => Except.error "failed to parse saturation value"
                  | _ => Except.error "unexpected value type in Prometheus response"
                | _ => Except.error "unexpected Prometheus value format") = true := ho
            rcases hval : r.value with _ | ⟨v0, _ | ⟨v1, vrest⟩⟩
            · rw [hval] at ho2
              exact absurd ho2 (by simp [exceptOk])
            · rw [hval] at ho2
              exact absurd ho2 (by simp [exceptOk])
            · rw [hval] at ho2
              cases v1 with
              | str raw p =>
                cases p with
                | none => exact absurd ho2 (by simp [exceptOk])
                | some qv => exact Or.inr ⟨r, rest, v0, raw, qv, vrest, rfl, hval⟩
              | num qq => exact absurd ho2 (by simp [exceptOk])
              | other => exact absurd ho2 (by simp [exceptOk])

/-- C10 witness: the equivalence theorem at a concrete one-sample result
with value one half carried by both representations, and a concrete
failed query. -/
theorem c10_variant_equivalence_witness :
    queryPoolSaturationAPI (.ok (.vector [⟨1/2, 7⟩])) = .ok (1/2) ∧
    queryPoolSaturationHTTP (.response 200 "body" (some ⟨"success", "vector",
      [⟨[("inference_pool", "p")], [.num 3, .str "0.5" (some (1/2))]⟩]⟩)) = .ok (1/2) ∧
    exceptOk (queryPoolSaturationAPI (.error "connection refused")) = false := by
  obtain ⟨h1, h2, -⟩ := c10_variant_equivalence
  have h3 := h1 [⟨1/2, 7⟩] [⟨[("inference_pool", "p")], [.num 3, .str "0.5" (some (1/2))]⟩]
    "body" "vector" (List.Forall₂.cons ⟨.num 3, "0.5", rfl⟩ List.Forall₂.nil)
  exact ⟨h3.1, h3.2, h2 "connection refused"⟩

end LlmDAsync
